import Mathlib

/-!
# Verification of the device control core (Device-Code repository)

Shallow embedding of the control-plane code under `src/main/`:

* the device state machine (`application.cc`: `SetDeviceState`,
  `AbortSpeaking`, `StopListening`, `ShowRegistrationPrompt`,
  `PerformAutoLogout`, the `OnIncomingJson` dispatcher, `MainEventLoop`,
  `CanEnterSleepMode`),
* the session timeout policy (`protocols/protocol.cc`: `Protocol::IsTimeout`),
* the remote tool-call server (`mcp_server.cc`: `GetToolsList`, `DoToolCall`).

External collaborators (display, LED, camera driver, audio DSP, the network
transport) are modelled as emitted effects or Boolean capability state, the
way the core observes them.  Hardware timers are modelled by a Boolean
running/not-running flag, since the core only starts and stops them.
-/

/-- `DeviceState` enum from `device_state.h`, constructor names as in the
source. -/
inductive DeviceState
| kDeviceStateUnknown
| kDeviceStateStarting
| kDeviceStateWifiConfiguring
| kDeviceStateIdle
| kDeviceStateConnecting
| kDeviceStateListening
| kDeviceStateSpeaking
| kDeviceStateUpgrading
| kDeviceStateActivating
| kDeviceStateAudioTesting
| kDeviceStateFatalError
| kDeviceStateLogin
deriving DecidableEq, Repr

/-- `ListeningMode` as used by `application.cc`. -/
inductive ListeningMode
| kListeningModeManualStop
| kListeningModeAutoStop
| kListeningModeRealtime
deriving DecidableEq, Repr

/-- Observable side effects the core performs on its collaborators:
protocol notifications and outbound session commands, the observer event
posted through `DeviceStateEventManager`, LED/decoder/audio actions.
Display rendering calls (`SetStatus`/`SetEmotion`/`SetChatMessage`) are
pure UI and are not tracked. -/
inductive Effect
| protocolSetDeviceState (st : DeviceState)
| stateChangeEvent (prev next : DeviceState)
| ledStateChanged
| sentAbort
| sentStopListening
| sentStartListening (mode : ListeningMode)
| sentInspectionRequest
| resetDecoder
| attemptOpenChannel
| playedSound
| rebooted
deriving DecidableEq, Repr

/-- The closures the embedded code hands to `Application::Schedule`; they are
drained later by the main event loop.  `stopListenCheck` is the closure
scheduled by `StopListening` (send stop + go `Idle`, but only if the device is
still `Listening` when it runs); `standbyReconnect` is the delayed passive
reconnect scheduled on entry to `Idle`. -/
inductive PendingClosure
| stopListenCheck
| standbyReconnect
deriving DecidableEq, Repr

/-- The `Application` state the claims touch, field names after the members of
`Application` (`application.h`).  `logged_in` is `user_manager_.IsLoggedIn()`;
`has_protocol` is `protocol_ != nullptr`; `channel_open` is
`protocol_->IsAudioChannelOpened()`; the four `*_timer` flags record whether
the corresponding `esp_timer` is currently created+started; `afe_wake_word`
is the compile-time `CONFIG_USE_AFE_WAKE_WORD` flag; `open_would_succeed`
abstracts the outcome of `protocol_->OpenAudioChannel()`; `audio_idle` is
`audio_service_.IsIdle()`; `pending` is the scheduler's closure queue. -/
structure AppState where
  device_state : DeviceState
  clock_ticks : Nat
  listening_mode : ListeningMode
  aborted : Bool
  tts_session_active : Bool
  pending_inspection_after_login : Bool
  login_tts_completed : Bool
  logged_in : Bool
  has_protocol : Bool
  channel_open : Bool
  audio_processor_running : Bool
  audio_idle : Bool
  voice_processing : Bool
  wake_word_detection : Bool
  inspection_timer : Bool
  auto_logout_timer : Bool
  daily_check_timer : Bool
  camera_upload_timer : Bool
  camera_preview_timer : Bool
  afe_wake_word : Bool
  open_would_succeed : Bool
  pending : List PendingClosure
deriving DecidableEq, Repr

/-- `Application::SetDeviceState` (`application.cc:909`): no-op when the new
state equals the current one; otherwise reset `clock_ticks_`, store the new
state, notify the protocol (when one exists), post the state-change event,
refresh the LED, then run the per-state entry side effects of the `switch`.
The `Unknown`/`Idle` cases share one branch as in the source. -/
def setDeviceState (s : AppState) (st : DeviceState) : AppState × List Effect :=
  if s.device_state = st then (s, [])
  else
    let prev := s.device_state
    let s := { s with clock_ticks := 0, device_state := st }
    let es := (if s.has_protocol then [Effect.protocolSetDeviceState st] else [])
              ++ [Effect.stateChangeEvent prev st, Effect.ledStateChanged]
    match st with
    | DeviceState.kDeviceStateUnknown | DeviceState.kDeviceStateIdle =>
      let s := { s with camera_preview_timer := false, camera_upload_timer := false,
                        voice_processing := false, wake_word_detection := true }
      if s.logged_in && s.has_protocol && !s.channel_open then
        ({ s with pending := s.pending ++ [PendingClosure.standbyReconnect] }, es)
      else
        (s, es)
    | DeviceState.kDeviceStateConnecting =>
      ({ s with camera_preview_timer := false, camera_upload_timer := false }, es)
    | DeviceState.kDeviceStateListening =>
      let s := { s with camera_preview_timer := false, camera_upload_timer := false }
      let r :=
        if s.pending_inspection_after_login && s.login_tts_completed then
          ({ s with pending_inspection_after_login := false, login_tts_completed := false },
           es ++ [Effect.sentInspectionRequest])
        else (s, es)
      let s := r.1
      if !s.audio_processor_running then
        ({ s with voice_processing := true, wake_word_detection := false },
         r.2 ++ [Effect.sentStartListening s.listening_mode])
      else
        (s, r.2)
    | DeviceState.kDeviceStateSpeaking =>
      let s := { s with camera_preview_timer := false, camera_upload_timer := false }
      let s :=
        if s.listening_mode ≠ ListeningMode.kListeningModeRealtime then
          { s with voice_processing := false, wake_word_detection := s.afe_wake_word }
        else s
      (s, es ++ [Effect.resetDecoder])
    | DeviceState.kDeviceStateLogin =>
      ({ s with voice_processing := false, wake_word_detection := true,
                camera_preview_timer := true, camera_upload_timer := true }, es)
    | _ => (s, es)

/-- `Application::AbortSpeaking` (`application.cc:896`): set the aborted flag
and send the abort command; it does not change the device state. -/
def abortSpeaking (s : AppState) : AppState × List Effect :=
  ({ s with aborted := true }, [Effect.sentAbort])

/-- `Application::StopListening` (`application.cc:394`): in `AudioTesting`
switch back to `WifiConfiguring`; otherwise, when the state is one of
`Listening`/`Speaking`/`Idle`, schedule a closure that sends the
stop-listening command and goes `Idle` only if the device is still
`Listening` when the closure runs. -/
def stopListening (s : AppState) : AppState × List Effect :=
  if s.device_state = DeviceState.kDeviceStateAudioTesting then
    setDeviceState s DeviceState.kDeviceStateWifiConfiguring
  else if s.device_state = DeviceState.kDeviceStateListening
       ∨ s.device_state = DeviceState.kDeviceStateSpeaking
       ∨ s.device_state = DeviceState.kDeviceStateIdle then
    ({ s with pending := s.pending ++ [PendingClosure.stopListenCheck] }, [])
  else
    (s, [])

/-- `Application::ShowRegistrationPrompt` (`application.cc:1402`): render the
registration prompt, stop the camera preview, then assign
`device_state_ = kDeviceStateIdle` directly (bypassing `SetDeviceState`),
and set voice processing off / wake-word detection on.  Note what it does
not do: no `clock_ticks_` reset, no protocol notification, no state-change
event, no camera-upload stop, no standby reconnect. -/
def showRegistrationPrompt (s : AppState) : AppState × List Effect :=
  ({ s with camera_preview_timer := false,
            device_state := DeviceState.kDeviceStateIdle,
            voice_processing := false,
            wake_word_detection := true }, [])

/-- `Application::PerformAutoLogout` (`application.cc:1715`): stop the
inspection and auto-logout timers, clear the inspection flags
(`ClearInspectionFlags`), clear the user (`user_manager_.ClearUserInfo`),
abort speaking, call `StopListening`, force `Idle`, show the logout message
and play a sound.  The daily-check timer is not touched here (contrast
`CheckDailyExpiration`, which also stops it). -/
def performAutoLogout (s : AppState) : AppState × List Effect :=
  let s := { s with inspection_timer := false, auto_logout_timer := false }
  let s := { s with pending_inspection_after_login := false, login_tts_completed := false }
  let s := { s with logged_in := false }
  let r1 := abortSpeaking s
  let r2 := stopListening r1.1
  let r3 := setDeviceState r2.1 DeviceState.kDeviceStateIdle
  (r3.1, r1.2 ++ r2.2 ++ r3.2 ++ [Effect.playedSound])

/-- Run one scheduled closure (the body of the lambda handed to
`Schedule`).  `stopListenCheck`: `application.cc:411` re-checks
`device_state_ == kDeviceStateListening` before sending the stop command and
going `Idle`.  `standbyReconnect`: `application.cc:951` re-checks that the
device is still `Idle`, still logged in and the channel still closed before
attempting `OpenAudioChannel`. -/
def runPendingClosure (s : AppState) : PendingClosure → AppState × List Effect
| PendingClosure.stopListenCheck =>
  if s.device_state = DeviceState.kDeviceStateListening then
    let r := setDeviceState s DeviceState.kDeviceStateIdle
    (r.1, Effect.sentStopListening :: r.2)
  else (s, [])
| PendingClosure.standbyReconnect =>
  if s.device_state = DeviceState.kDeviceStateIdle && s.logged_in && !s.channel_open then
    ({ s with channel_open := s.open_would_succeed }, [Effect.attemptOpenChannel])
  else (s, [])

/-- One wake-up of the scheduler's closure drain (`MainEventLoop`,
`application.cc:786`): the whole batch is moved out and run in FIFO order;
closures scheduled while draining stay queued for the next wake-up. -/
def drainPendingOnce (s : AppState) : AppState × List Effect :=
  let cls := s.pending
  let s := { s with pending := [] }
  cls.foldl
    (fun acc c =>
      let r := runPendingClosure acc.1 c
      (r.1, acc.2 ++ r.2))
    (s, [])

/-- `PerformAutoLogout` followed by the scheduler draining the closures it
scheduled (the deferred part of `StopListening`). -/
def runAutoLogout (s : AppState) : AppState × List Effect :=
  let r1 := performAutoLogout s
  let r2 := drainPendingOnce r1.1
  (r2.1, r1.2 ++ r2.2)

/-- `Application::CanEnterSleepMode` (`application.cc:1105`): sleep is
allowed only when the device is `Idle`, no audio channel is open (or there
is no protocol), and the audio service is idle. -/
def canEnterSleepMode (s : AppState) : Bool :=
  if s.device_state ≠ DeviceState.kDeviceStateIdle then false
  else if s.has_protocol && s.channel_open then false
  else if !s.audio_idle then false
  else true

namespace Protocol

/-- `Protocol::IsTimeout(bool)` (`protocols/protocol.cc`): with checking
disabled it returns false; otherwise it returns whether the elapsed seconds
since the last inbound traffic (the truncated
`duration_cast<seconds>(now - last_incoming_time_).count()`) strictly
exceed the fixed 120-second window. -/
def IsTimeout (check_timeout : Bool) (elapsed_seconds : Nat) : Bool :=
  if !check_timeout then false
  else decide (elapsed_seconds > 120)

end Protocol

/-! ## Helper lemmas about `setDeviceState` -/

/-- `SetDeviceState` is a no-op when the requested state equals the current
one (`application.cc:911`). -/
theorem setDeviceState_noop_of_eq (s : AppState) (st : DeviceState)
    (h : s.device_state = st) : setDeviceState s st = (s, []) := by
  unfold setDeviceState
  rw [if_pos h]

/-- After `SetDeviceState(st)` the current state is `st`. -/
theorem setDeviceState_device_eq (s : AppState) (st : DeviceState) :
    (setDeviceState s st).1.device_state = st := by
  unfold setDeviceState
  split
  · next h => exact h
  · cases st <;> dsimp only <;> (repeat' split) <;> rfl

/-! ## C6, C9, C10 -/

/-- C6: calling `SetDeviceState(S)` when the current state is already `S`
leaves the state, the tick counter and every observable side effect
unchanged (the call returns the state untouched and emits no effects), so
two consecutive calls with the same argument perform the entry side effects
exactly once: the second call is always a no-op. -/
theorem setDeviceState_same_state_noop (s : AppState) (st : DeviceState) :
    (s.device_state = st → setDeviceState s st = (s, [])) ∧
    setDeviceState (setDeviceState s st).1 st = ((setDeviceState s st).1, []) :=
  ⟨setDeviceState_noop_of_eq s st,
   setDeviceState_noop_of_eq _ st (setDeviceState_device_eq s st)⟩

/-- C9: `IsTimeout(checkEnabled)` returns true iff checking is enabled and
the elapsed seconds since the last inbound traffic strictly exceed the
fixed 120-second window; with checking disabled it is always false. -/
theorem isTimeout_iff (c : Bool) (e : Nat) :
    Protocol.IsTimeout c e = true ↔ (c = true ∧ 120 < e) := by
  cases c <;> simp [Protocol.IsTimeout]

/-- C10: `CanEnterSleepMode` returns true iff the device is `Idle`, no
audio channel is open (or no protocol exists), and the audio service is
idle. -/
theorem canEnterSleepMode_iff (s : AppState) :
    canEnterSleepMode s = true ↔
      (s.device_state = DeviceState.kDeviceStateIdle ∧
       ¬(s.has_protocol = true ∧ s.channel_open = true) ∧
       s.audio_idle = true) := by
  unfold canEnterSleepMode
  split_ifs with h1 h2 h3 <;> simp_all

/-! ## C1: auto-logout -/

/-- A concrete pre-state for the auto-logout scenario: the device is
`Speaking`, a user is logged in, and all four governance timers
(inspection, auto-logout, daily-check, camera-upload) are running. -/
def autoLogoutExample : AppState :=
  { device_state := DeviceState.kDeviceStateSpeaking
    clock_ticks := 7
    listening_mode := ListeningMode.kListeningModeAutoStop
    aborted := false
    tts_session_active := true
    pending_inspection_after_login := false
    login_tts_completed := false
    logged_in := true
    has_protocol := true
    channel_open := true
    audio_processor_running := false
    audio_idle := false
    voice_processing := true
    wake_word_detection := false
    inspection_timer := true
    auto_logout_timer := true
    daily_check_timer := true
    camera_upload_timer := true
    camera_preview_timer := false
    afe_wake_word := false
    open_would_succeed := true
    pending := [] }

/-- C1 counterexample: auto-logout fires while the device is `Speaking`
with all four governance timers running, yet after `PerformAutoLogout`
(and the scheduler drain) the daily-check timer is still running —
`PerformAutoLogout` stops only the inspection and auto-logout timers. -/
theorem performAutoLogout_leaves_daily_check_running :
    autoLogoutExample.device_state = DeviceState.kDeviceStateSpeaking ∧
    autoLogoutExample.inspection_timer = true ∧
    autoLogoutExample.auto_logout_timer = true ∧
    autoLogoutExample.daily_check_timer = true ∧
    autoLogoutExample.camera_upload_timer = true ∧
    (runAutoLogout autoLogoutExample).1.daily_check_timer = true := by
  decide

/-- Once the user is cleared and the device is `Idle`, every closure left in
the scheduler queue is a no-op: the `stopListenCheck` closure re-checks for
`Listening` and the `standbyReconnect` closure re-checks `IsLoggedIn`. -/
theorem runPendingClosure_noop (s : AppState) (h1 : s.logged_in = false)
    (h2 : s.device_state = DeviceState.kDeviceStateIdle) (c : PendingClosure) :
    runPendingClosure s c = (s, []) := by
  cases c <;> simp [runPendingClosure, h1, h2]

theorem drain_noop_aux (cls : List PendingClosure) (s : AppState)
    (es : List Effect) (h1 : s.logged_in = false)
    (h2 : s.device_state = DeviceState.kDeviceStateIdle) :
    cls.foldl
      (fun acc c =>
        let r := runPendingClosure acc.1 c
        (r.1, acc.2 ++ r.2)) (s, es) = (s, es) := by
  induction cls generalizing es with
  | nil => rfl
  | cons c cls ih =>
    simp only [List.foldl_cons, runPendingClosure_noop s h1 h2 c,
      List.append_nil]
    exact ih es

theorem drainPendingOnce_noop (s : AppState) (h1 : s.logged_in = false)
    (h2 : s.device_state = DeviceState.kDeviceStateIdle) :
    drainPendingOnce s = ({ s with pending := [] }, []) := by
  unfold drainPendingOnce
  exact drain_noop_aux s.pending _ [] h1 h2

/-- What `PerformAutoLogout` actually does from `Speaking`. -/
theorem performAutoLogout_speaking_eq (s : AppState)
    (h : s.device_state = DeviceState.kDeviceStateSpeaking) :
    performAutoLogout s =
      ({ s with clock_ticks := 0,
                device_state := DeviceState.kDeviceStateIdle,
                aborted := true,
                pending_inspection_after_login := false,
                login_tts_completed := false,
                logged_in := false,
                inspection_timer := false,
                auto_logout_timer := false,
                camera_upload_timer := false,
                camera_preview_timer := false,
                voice_processing := false,
                wake_word_detection := true,
                pending := s.pending ++ [PendingClosure.stopListenCheck] },
       Effect.sentAbort ::
         ((if s.has_protocol then
             [Effect.protocolSetDeviceState DeviceState.kDeviceStateIdle]
           else []) ++
          [Effect.stateChangeEvent DeviceState.kDeviceStateSpeaking
             DeviceState.kDeviceStateIdle,
           Effect.ledStateChanged, Effect.playedSound])) := by
  simp [performAutoLogout, abortSpeaking, stopListening, setDeviceState, h]

/-- C1 (amended): when the auto-logout timer fires while the device is
`Speaking`, `PerformAutoLogout` aborts the speech (flag set and abort
command sent), clears the authenticated user and the inspection flags,
stops the inspection and auto-logout timers, leaves the device `Idle` with
voice processing disabled, and — via entering `Idle` — the camera-upload
timer is stopped; but the daily-check timer is left running (unchanged),
contrary to the claim that all four governance timers are stopped. -/
theorem runAutoLogout_speaking (s : AppState)
    (h : s.device_state = DeviceState.kDeviceStateSpeaking) :
    (runAutoLogout s).1.aborted = true ∧
    Effect.sentAbort ∈ (runAutoLogout s).2 ∧
    (runAutoLogout s).1.logged_in = false ∧
    (runAutoLogout s).1.pending_inspection_after_login = false ∧
    (runAutoLogout s).1.login_tts_completed = false ∧
    (runAutoLogout s).1.inspection_timer = false ∧
    (runAutoLogout s).1.auto_logout_timer = false ∧
    (runAutoLogout s).1.camera_upload_timer = false ∧
    (runAutoLogout s).1.voice_processing = false ∧
    (runAutoLogout s).1.daily_check_timer = s.daily_check_timer ∧
    (runAutoLogout s).1.device_state = DeviceState.kDeviceStateIdle := by
  have key := performAutoLogout_speaking_eq s h
  have hdrain := drainPendingOnce_noop (performAutoLogout s).1
    (by rw [key]) (by rw [key])
  simp only [runAutoLogout]
  rw [hdrain, key]
  simp

/-- C1 amended-theorem witness at the concrete scenario state. -/
theorem runAutoLogout_speaking_witness :
    (runAutoLogout autoLogoutExample).1.aborted = true ∧
    Effect.sentAbort ∈ (runAutoLogout autoLogoutExample).2 ∧
    (runAutoLogout autoLogoutExample).1.logged_in = false ∧
    (runAutoLogout autoLogoutExample).1.pending_inspection_after_login = false ∧
    (runAutoLogout autoLogoutExample).1.login_tts_completed = false ∧
    (runAutoLogout autoLogoutExample).1.inspection_timer = false ∧
    (runAutoLogout autoLogoutExample).1.auto_logout_timer = false ∧
    (runAutoLogout autoLogoutExample).1.camera_upload_timer = false ∧
    (runAutoLogout autoLogoutExample).1.voice_processing = false ∧
    (runAutoLogout autoLogoutExample).1.daily_check_timer =
      autoLogoutExample.daily_check_timer ∧
    (runAutoLogout autoLogoutExample).1.device_state =
      DeviceState.kDeviceStateIdle :=
  runAutoLogout_speaking autoLogoutExample (by decide)

/-! ## The inbound message dispatcher and the modelled mutators (C2, C7) -/

/-- The inbound session messages the `OnIncomingJson` dispatcher
(`application.cc:539`) demultiplexes on the `type` tag.  Each tts sub-state
message stands for the closure the dispatcher schedules for it (the
`sentence_start` case is only scheduled when its `text` field is a string;
a `sentence_start` without text is a no-op and is covered by `unknownMsg`).
`stt`, `llm` and `alertMsg` only touch the display; `mcpForward` hands the
payload to the tool-call server (whose calls run on their own worker);
`systemReboot` restarts the chip. -/
inductive InMsg
| ttsStart
| ttsStop
| ttsSentenceStart
| stt
| llm
| mcpForward
| systemReboot
| alertMsg
| unknownMsg
deriving DecidableEq, Repr

/-- The flag updates at the head of the `tts stop` closure
(`application.cc:562..572`): clear `tts_session_active_`, and latch
`login_tts_completed_` when a post-login inspection is pending. -/
def ttsStopFlags (s : AppState) : AppState :=
  let s := { s with tts_session_active := false }
  if s.pending_inspection_after_login && !s.login_tts_completed then
    { s with login_tts_completed := true }
  else s

/-- Effect of one inbound message on the application state, following the
scheduled closure bodies in `application.cc:544..604`:
`tts start` clears the aborted flag and marks the TTS session active
without touching the state; `tts stop` clears the session flag, latches
`login_tts_completed` when an inspection is pending, and only when the
device is `Speaking` transitions to `Idle` (manual-stop mode) or
`Listening`; `tts sentence_start` enters `Speaking` only when the TTS
session is active and the device is `Idle` or `Listening`. -/
def msgStep (s : AppState) : InMsg → AppState × List Effect
| InMsg.ttsStart => ({ s with aborted := false, tts_session_active := true }, [])
| InMsg.ttsStop =>
  let s := ttsStopFlags s
  if s.device_state = DeviceState.kDeviceStateSpeaking then
    if s.listening_mode = ListeningMode.kListeningModeManualStop then
      setDeviceState s DeviceState.kDeviceStateIdle
    else
      setDeviceState s DeviceState.kDeviceStateListening
  else (s, [])
| InMsg.ttsSentenceStart =>
  if s.tts_session_active
     && (decide (s.device_state = DeviceState.kDeviceStateIdle)
         || decide (s.device_state = DeviceState.kDeviceStateListening)) then
    setDeviceState s DeviceState.kDeviceStateSpeaking
  else (s, [])
| InMsg.systemReboot => (s, [Effect.rebooted])
| _ => (s, [])

/-- The operations of the embedded core that can touch `device_state_`:
`SetDeviceState` itself, `ShowRegistrationPrompt` (which assigns the field
directly), the inbound-message closures, and `PerformAutoLogout`. -/
inductive AppOp
| setState (st : DeviceState)
| showRegistration
| incoming (m : InMsg)
| autoLogout
deriving DecidableEq, Repr

/-- One modelled operation. -/
def step (s : AppState) : AppOp → AppState × List Effect
| AppOp.setState st => setDeviceState s st
| AppOp.showRegistration => showRegistrationPrompt s
| AppOp.incoming m => msgStep s m
| AppOp.autoLogout => performAutoLogout s

/-- Processing a list of inbound messages in order. -/
def runMsgs (s : AppState) (ms : List InMsg) : AppState :=
  ms.foldl (fun s m => (msgStep s m).1) s

/-! ## C2: every transition passes through SetDeviceState -/

/-- A real transition through `SetDeviceState` resets the tick counter and
posts the observer event. -/
theorem setDeviceState_change (s : AppState) (st : DeviceState)
    (h : s.device_state ≠ st) :
    (setDeviceState s st).1.clock_ticks = 0 ∧
    Effect.stateChangeEvent s.device_state st ∈ (setDeviceState s st).2 := by
  unfold setDeviceState
  rw [if_neg h]
  cases st <;> dsimp only <;> (repeat' split) <;> simp

/-- Pre-state for the C2 counterexample: the device sits in `Login` (the
face-capture flow just failed) with a nonzero tick count. -/
def regPromptExample : AppState :=
  { autoLogoutExample with
      device_state := DeviceState.kDeviceStateLogin
      clock_ticks := 5 }

/-- C2 counterexample: `ShowRegistrationPrompt` changes `device_state_`
(from `Login` to `Idle`) by direct assignment (`application.cc:1435`),
without resetting the per-state tick counter and without emitting the
session-layer notification or the observer event — so not every change of
the device state passes through `SetDeviceState`. -/
theorem showRegistrationPrompt_bypasses_setDeviceState :
    (step regPromptExample AppOp.showRegistration).1.device_state ≠
      regPromptExample.device_state ∧
    (step regPromptExample AppOp.showRegistration).1.clock_ticks ≠ 0 ∧
    (step regPromptExample AppOp.showRegistration).2 = [] := by
  decide


/-- A call of `SetDeviceState` on a target differing from the current state
resets the tick counter and posts the observer event for the entered
state. -/
theorem setDeviceState_entry_ok (s : AppState) (st : DeviceState)
    (hne : s.device_state ≠ st) :
    (setDeviceState s st).1.clock_ticks = 0 ∧
    ∃ prev, Effect.stateChangeEvent prev (setDeviceState s st).1.device_state
      ∈ (setDeviceState s st).2 := by
  have hc := setDeviceState_change s st hne
  have hd := setDeviceState_device_eq s st
  exact ⟨hc.1, s.device_state, by rw [hd]; exact hc.2⟩

/-- `PerformAutoLogout` always ends in a `SetDeviceState(Idle)` call whose
effects are part of the emitted effect list; the state fed into that call
still holds the original device state, except in the `AudioTesting` corner
where `StopListening` has already switched to `WifiConfiguring`. -/
theorem performAutoLogout_shape (s : AppState) :
    ∃ (X : AppState) (pre post : List Effect),
      performAutoLogout s =
        ((setDeviceState X DeviceState.kDeviceStateIdle).1,
         pre ++ (setDeviceState X DeviceState.kDeviceStateIdle).2 ++ post) ∧
      (X.device_state = s.device_state ∨
       X.device_state = DeviceState.kDeviceStateWifiConfiguring) := by
  unfold performAutoLogout abortSpeaking stopListening
  dsimp only
  split
  · next hat =>
    refine ⟨(setDeviceState
        { s with inspection_timer := false, auto_logout_timer := false,
                 pending_inspection_after_login := false, login_tts_completed := false,
                 logged_in := false, aborted := true }
        DeviceState.kDeviceStateWifiConfiguring).1,
      [Effect.sentAbort] ++
        (setDeviceState
          { s with inspection_timer := false, auto_logout_timer := false,
                   pending_inspection_after_login := false, login_tts_completed := false,
                   logged_in := false, aborted := true }
          DeviceState.kDeviceStateWifiConfiguring).2,
      [Effect.playedSound], ?_, ?_⟩
    · simp
    · right
      exact setDeviceState_device_eq _ _
  · split
    · refine ⟨{ s with
                  inspection_timer := false, auto_logout_timer := false,
                  pending_inspection_after_login := false, login_tts_completed := false,
                  logged_in := false, aborted := true,
                  pending := s.pending ++ [PendingClosure.stopListenCheck] },
        [Effect.sentAbort], [Effect.playedSound], by simp, Or.inl rfl⟩
    · refine ⟨{ s with
                  inspection_timer := false, auto_logout_timer := false,
                  pending_inspection_after_login := false, login_tts_completed := false,
                  logged_in := false, aborted := true },
        [Effect.sentAbort], [Effect.playedSound], by simp, Or.inl rfl⟩

/-- C2 (amended): among the modelled mutators of `device_state_`, every
operation except `ShowRegistrationPrompt` changes the state only through
`SetDeviceState`, so whenever the state changes the per-state tick counter
is reset and a state-change observer event for the entered state is posted.
`ShowRegistrationPrompt` is the one exception: it assigns
`device_state_ = kDeviceStateIdle` directly, skipping those side effects. -/
theorem step_transition_through_setDeviceState (s : AppState) (op : AppOp)
    (hop : op ≠ AppOp.showRegistration)
    (hch : (step s op).1.device_state ≠ s.device_state) :
    (step s op).1.clock_ticks = 0 ∧
    ∃ prev, Effect.stateChangeEvent prev (step s op).1.device_state
      ∈ (step s op).2 := by
  cases op with
  | showRegistration => exact absurd rfl hop
  | setState st =>
    have hne : s.device_state ≠ st := by
      intro he
      rw [show step s (AppOp.setState st) = setDeviceState s st from rfl,
        setDeviceState_noop_of_eq s st he] at hch
      exact hch rfl
    exact setDeviceState_entry_ok s st hne
  | autoLogout =>
    obtain ⟨X, pre, post, heq, hdev⟩ := performAutoLogout_shape s
    have hstep : step s AppOp.autoLogout = performAutoLogout s := rfl
    rw [hstep, heq] at hch ⊢
    have hne : X.device_state ≠ DeviceState.kDeviceStateIdle := by
      intro hid
      rcases hdev with hd | hd
      · rw [setDeviceState_noop_of_eq X _ hid] at hch
        exact hch (hid.symm ▸ hd)
      · rw [hid] at hd; cases hd
    have hc := setDeviceState_entry_ok X DeviceState.kDeviceStateIdle hne
    obtain ⟨prev, hmem⟩ := hc.2
    exact ⟨hc.1, prev, by simp [hmem]⟩
  | incoming m =>
    cases m with
    | ttsStart => exact absurd rfl hch
    | stt => exact absurd rfl hch
    | llm => exact absurd rfl hch
    | mcpForward => exact absurd rfl hch
    | systemReboot => exact absurd rfl hch
    | alertMsg => exact absurd rfl hch
    | unknownMsg => exact absurd rfl hch
    | ttsSentenceStart =>
      have hred : step s (AppOp.incoming InMsg.ttsSentenceStart) =
          (if s.tts_session_active
              && (decide (s.device_state = DeviceState.kDeviceStateIdle)
                  || decide (s.device_state = DeviceState.kDeviceStateListening)) then
             setDeviceState s DeviceState.kDeviceStateSpeaking
           else (s, [])) := rfl
      rw [hred] at hch ⊢
      by_cases hcond : (s.tts_session_active
          && (decide (s.device_state = DeviceState.kDeviceStateIdle)
              || decide (s.device_state = DeviceState.kDeviceStateListening))) = true
      · rw [if_pos hcond] at hch ⊢
        simp only [Bool.and_eq_true, Bool.or_eq_true, decide_eq_true_eq] at hcond
        have hne : s.device_state ≠ DeviceState.kDeviceStateSpeaking := by
          intro he
          rcases hcond.2 with hd | hd <;> (rw [he] at hd; cases hd)
        exact setDeviceState_entry_ok s _ hne
      · rw [if_neg hcond] at hch
        exact absurd rfl hch
    | ttsStop =>
      have hred : step s (AppOp.incoming InMsg.ttsStop) =
          (if (ttsStopFlags s).device_state = DeviceState.kDeviceStateSpeaking then
             if (ttsStopFlags s).listening_mode = ListeningMode.kListeningModeManualStop then
               setDeviceState (ttsStopFlags s) DeviceState.kDeviceStateIdle
             else setDeviceState (ttsStopFlags s) DeviceState.kDeviceStateListening
           else (ttsStopFlags s, [])) := rfl
      have hflagsdev : (ttsStopFlags s).device_state = s.device_state := by
        unfold ttsStopFlags
        dsimp only
        split <;> rfl
      rw [hred] at hch ⊢
      by_cases hsp : (ttsStopFlags s).device_state = DeviceState.kDeviceStateSpeaking
      · rw [if_pos hsp] at hch ⊢
        by_cases hm : (ttsStopFlags s).listening_mode = ListeningMode.kListeningModeManualStop
        · rw [if_pos hm] at hch ⊢
          exact setDeviceState_entry_ok _ _ (by rw [hsp]; intro h; cases h)
        · rw [if_neg hm] at hch ⊢
          exact setDeviceState_entry_ok _ _ (by rw [hsp]; intro h; cases h)
      · rw [if_neg hsp] at hch
        exact absurd hflagsdev hch

/-- C2 amended-theorem witness at a concrete transition
(`SetDeviceState(Listening)` from `Speaking`). -/
theorem step_transition_through_setDeviceState_witness :
    (step autoLogoutExample
      (AppOp.setState DeviceState.kDeviceStateListening)).1.clock_ticks = 0 ∧
    ∃ prev, Effect.stateChangeEvent prev
        (step autoLogoutExample
          (AppOp.setState DeviceState.kDeviceStateListening)).1.device_state
      ∈ (step autoLogoutExample (AppOp.setState DeviceState.kDeviceStateListening)).2 :=
  step_transition_through_setDeviceState autoLogoutExample
    (AppOp.setState DeviceState.kDeviceStateListening) (by decide) (by decide)

/-! ## C7: tts start / stop without sentence_start never enters Speaking -/

/-- The `tts stop` flag updates never change the device state. -/
theorem ttsStopFlags_device (s : AppState) :
    (ttsStopFlags s).device_state = s.device_state := by
  unfold ttsStopFlags
  dsimp only
  split <;> rfl

/-- Among the inbound session messages, only `tts sentence_start` can move
the device into `Speaking`: any other message ending in `Speaking` implies
the device was already `Speaking`. -/
theorem msgStep_no_speaking_entry (s : AppState) (m : InMsg)
    (hm : m ≠ InMsg.ttsSentenceStart)
    (hsp : (msgStep s m).1.device_state = DeviceState.kDeviceStateSpeaking) :
    s.device_state = DeviceState.kDeviceStateSpeaking := by
  cases m with
  | ttsSentenceStart => exact absurd rfl hm
  | ttsStop =>
    by_cases hd : (ttsStopFlags s).device_state = DeviceState.kDeviceStateSpeaking
    · rw [← ttsStopFlags_device s]
      exact hd
    · have hred : msgStep s InMsg.ttsStop =
          (if (ttsStopFlags s).device_state = DeviceState.kDeviceStateSpeaking then
             if (ttsStopFlags s).listening_mode = ListeningMode.kListeningModeManualStop then
               setDeviceState (ttsStopFlags s) DeviceState.kDeviceStateIdle
             else setDeviceState (ttsStopFlags s) DeviceState.kDeviceStateListening
           else (ttsStopFlags s, [])) := rfl
      rw [hred, if_neg hd] at hsp
      exact absurd hsp hd
  | ttsStart => exact hsp
  | stt => exact hsp
  | llm => exact hsp
  | mcpForward => exact hsp
  | systemReboot => exact hsp
  | alertMsg => exact hsp
  | unknownMsg => exact hsp

/-- Processing one more message is one `msgStep`. -/
theorem runMsgs_take_succ (s : AppState) (ms : List InMsg) (k : Nat)
    (hk : k < ms.length) :
    runMsgs s (ms.take (k+1)) = (msgStep (runMsgs s (ms.take k)) ms[k]).1 := by
  unfold runMsgs
  rw [List.take_succ, List.getElem?_eq_getElem hk]
  rw [List.foldl_append]
  rfl

/-- C7: in any inbound message sequence with a `tts start` at position `i`
and a `tts stop` at position `j > i` and no `tts sentence_start` strictly
between them, no processing step from position `i` through `j` enters the
`Speaking` state: if the device is `Speaking` after step `k` (for any
`i ≤ k ≤ j`), it was already `Speaking` before that step. -/
theorem tts_start_stop_never_speaking (ms : List InMsg) (s : AppState)
    (i j k : Nat) (hij : i < j)
    (hi : ms[i]? = some InMsg.ttsStart)
    (hj : ms[j]? = some InMsg.ttsStop)
    (hmid : ∀ n, i < n → n < j → ms[n]? ≠ some InMsg.ttsSentenceStart)
    (hik : i ≤ k) (hkj : k ≤ j)
    (hsp : (runMsgs s (ms.take (k+1))).device_state =
      DeviceState.kDeviceStateSpeaking) :
    (runMsgs s (ms.take k)).device_state = DeviceState.kDeviceStateSpeaking := by
  have hjlen : j < ms.length := by
    rcases Nat.lt_or_ge j ms.length with h | h
    · exact h
    · rw [List.getElem?_eq_none h] at hj
      cases hj
  have hklen : k < ms.length := Nat.lt_of_le_of_lt hkj hjlen
  have hgk : ms[k]? = some ms[k] := List.getElem?_eq_getElem hklen
  rw [runMsgs_take_succ s ms k hklen] at hsp
  refine msgStep_no_speaking_entry _ _ ?_ hsp
  intro he
  rcases Nat.eq_or_lt_of_le hik with heq | hlt
  · subst heq
    rw [hgk] at hi
    have h2 := Option.some.inj hi
    rw [h2] at he
    simp at he
  · rcases Nat.eq_or_lt_of_le hkj with heq2 | hlt2
    · subst heq2
      rw [hgk] at hj
      have h2 := Option.some.inj hj
      rw [h2] at he
      simp at he
    · exact (hmid k hlt hlt2) (by rw [hgk, he])

/-- C7 witness: the two-message sequence `tts start; tts stop` from a
`Speaking` pre-state, checked at the first step. -/
theorem tts_start_stop_never_speaking_witness :
    (runMsgs autoLogoutExample
      ([InMsg.ttsStart, InMsg.ttsStop].take 0)).device_state =
      DeviceState.kDeviceStateSpeaking :=
  tts_start_stop_never_speaking [InMsg.ttsStart, InMsg.ttsStop] autoLogoutExample
    0 1 0 (by decide) (by decide) (by decide)
    (fun n h1 h2 => absurd (Nat.lt_of_lt_of_le h2 h1) (Nat.lt_irrefl n))
    (by decide) (by decide) (by decide)

/-! ## The MCP tool-call server (`mcp_server.cc`): tools/list pagination -/

/-- What `GetToolsList` reads of a registered tool: its unique `name()` and
its serialized descriptor `to_json()` (only the length of the latter
matters to the pagination). -/
structure McpToolSummary where
  name : String
  json : String
deriving DecidableEq, Repr

/-- The fixed response-size budget, `max_payload_size` in
`McpServer::GetToolsList`. -/
def max_payload_size : Nat := 8000

/-- Reply to a `tools/list` request: a `result` carries the names of the
serialized tools and the optional `nextCursor`; an `error` carries the RPC
error message. -/
inductive ListReply
| result (names : List String) (nextCursor : Option String)
| error (msg : String)
deriving DecidableEq, Repr

/-- The cursor-scan phase of the `GetToolsList` loop: skip tools until one
whose name equals the cursor, keeping it and the rest (an unmatched cursor
skips everything). -/
def dropToCursor : List McpToolSummary → String → List McpToolSummary
| [], _ => []
| t :: rest, c => if t.name = c then t :: rest else dropToCursor rest c

/-- The serialization phase of the `GetToolsList` loop, tracking the length
of the JSON string built so far (which starts at 10, the length of the
array prefix the code seeds `json` with).  Each tool contributes
`to_json().length + 1` (the trailing comma); a tool is cut when
`json.length + tool_json.length + 30 > budget`, in which case it becomes
the `next_cursor` and the loop breaks.  Returns the serialized tools and
the optional next cursor. -/
def listToolsFrom (budget : Nat) : List McpToolSummary → Nat →
    List McpToolSummary × Option String
| [], _ => ([], none)
| t :: rest, len =>
  if budget < len + (t.json.length + 1) + 30 then
    ([], some t.name)
  else
    let r := listToolsFrom budget rest (len + (t.json.length + 1))
    (t :: r.1, r.2)

/-- `McpServer::GetToolsList` (`mcp_server.cc:436`): start serializing at
the cursor (or at the head when the cursor is empty); if no tool at all was
serialized and the registry is nonempty, reply with the payload-size RPC
error (naming `next_cursor`, which is empty when the cursor was simply not
found); otherwise reply with the serialized page and, when truncated, the
`nextCursor`. -/
def GetToolsList (tools : List McpToolSummary) (cursor : String)
    (budget : Nat) : ListReply :=
  let rest := if cursor = "" then tools else dropToCursor tools cursor
  let r := listToolsFrom budget rest 10
  if r.1 = [] ∧ tools ≠ [] then
    ListReply.error
      ("Failed to add tool " ++ r.2.getD "" ++ " because of payload size limit")
  else
    ListReply.result (r.1.map McpToolSummary.name) r.2

/-- Repeatedly call `tools/list`, following `nextCursor` until it is
absent, concatenating the returned pages; `none` on an RPC error (or if
the fuel runs out, which a successful pagination of `tools.length` pages
never does). -/
def collectPages (tools : List McpToolSummary) (budget : Nat) :
    Nat → String → Option (List String)
| 0, _ => none
| fuel+1, cursor =>
  match GetToolsList tools cursor budget with
  | ListReply.error _ => none
  | ListReply.result names none => some names
  | ListReply.result names (some nc) =>
    match collectPages tools budget fuel nc with
    | some more => some (names ++ more)
    | none => none

/-! ### C4: a cursor naming an absent tool -/

/-- A one-tool registry for the cursor counterexamples. -/
def c4Tools : List McpToolSummary :=
  [{ name := "self.get_device_status", json := "x" }]

/-- C4 counterexample: a `tools/list` whose cursor names no registered tool
is answered with the payload-size RPC error (with an empty tool name in
the message), not with an empty successful continuation. -/
theorem getToolsList_missing_cursor_error :
    ("nope" ∉ c4Tools.map McpToolSummary.name) ∧
    GetToolsList c4Tools "nope" max_payload_size =
      ListReply.error "Failed to add tool  because of payload size limit" ∧
    GetToolsList c4Tools "nope" max_payload_size ≠ ListReply.result [] none := by
  decide

/-- An unmatched cursor makes the scan skip the whole registry. -/
theorem dropToCursor_eq_nil (tools : List McpToolSummary) (c : String)
    (h : c ∉ tools.map McpToolSummary.name) : dropToCursor tools c = [] := by
  induction tools with
  | nil => rfl
  | cons t rest ih =>
    unfold dropToCursor
    rw [if_neg ?_]
    · exact ih (fun hm => h (List.mem_cons_of_mem _ hm))
    · intro he
      exact h (by rw [← he]; exact List.mem_cons_self _ _)

/-- C4 (amended): for every `tools/list` request against a nonempty
registry whose (nonempty) cursor names a tool that is not present, the
reply is the payload-size RPC error with an empty tool name — an empty
successful continuation is returned only when the registry itself is
empty. -/
theorem getToolsList_missing_cursor (tools : List McpToolSummary)
    (cursor : String) (budget : Nat) (hne : cursor ≠ "")
    (hmem : cursor ∉ tools.map McpToolSummary.name) (hnonempty : tools ≠ []) :
    GetToolsList tools cursor budget =
      ListReply.error "Failed to add tool  because of payload size limit" := by
  unfold GetToolsList
  rw [if_neg hne, dropToCursor_eq_nil tools cursor hmem]
  rw [if_pos ⟨rfl, hnonempty⟩]
  rfl

/-- C4 amended-theorem witness at a concrete registry and cursor. -/
theorem getToolsList_missing_cursor_witness :
    GetToolsList c4Tools "self.unknown" max_payload_size =
      ListReply.error "Failed to add tool  because of payload size limit" :=
  getToolsList_missing_cursor c4Tools "self.unknown" max_payload_size
    (by decide) (by decide) (by decide)

/-! ### C3: pagination completeness -/

/-- A registry whose single tool's descriptor is exactly as large as the
response-size budget used below. -/
def c3Tools : List McpToolSummary :=
  [{ name := "self.get_device_status", json := String.mk (List.replicate 50 'x') }]

/-- C3 counterexample: with a response-size budget (50) that is at least
the size of the largest serialized tool descriptor (50), pagination does
not yield the registry: the very first page fails with the payload-size
RPC error, because the budget must also cover the 10-byte array prefix,
the separating comma and the 30-byte reserve of the size check.  The
registry has unique, nonempty names, so no other side condition is
violated. -/
theorem toolsList_budget_counterexample :
    (c3Tools.map McpToolSummary.name).Nodup ∧
    (∀ t ∈ c3Tools, t.name ≠ "") ∧
    (∀ t ∈ c3Tools, t.json.length ≤ 50) ∧
    collectPages c3Tools 50 (c3Tools.length + 1) "" ≠
      some (c3Tools.map McpToolSummary.name) := by
  decide

/-- The serialization loop serves a prefix of its input and names the first
unserved tool (if any) as the next cursor. -/
theorem listToolsFrom_split (budget : Nat) (rest : List McpToolSummary) :
    ∀ len, ∃ k, k ≤ rest.length ∧
      (listToolsFrom budget rest len).1 = rest.take k ∧
      (listToolsFrom budget rest len).2 =
        ((rest.drop k).head?).map McpToolSummary.name := by
  induction rest with
  | nil =>
    intro len
    exact ⟨0, Nat.le_refl 0, by simp [listToolsFrom], by simp [listToolsFrom]⟩
  | cons t rest ih =>
    intro len
    unfold listToolsFrom
    dsimp only
    split
    · exact ⟨0, Nat.zero_le _, by simp, by simp⟩
    · obtain ⟨k, hk, h1, h2⟩ := ih (len + (t.json.length + 1))
      exact ⟨k + 1, Nat.succ_le_succ hk, by simp [h1], by simpa using h2⟩

/-- When the budget covers a tool's descriptor plus the fixed overhead (the
10-byte prefix, its separating comma and the 30-byte reserve), the page
starting at that tool serves at least that tool. -/
theorem listToolsFrom_cons_fits (budget : Nat) (t : McpToolSummary)
    (rest : List McpToolSummary) (hfit : t.json.length + 41 ≤ budget) :
    (listToolsFrom budget (t :: rest) 10).1 ≠ [] := by
  unfold listToolsFrom
  rw [if_neg (by omega)]
  simp

/-- With unique names, scanning for the name of the head of a suffix finds
exactly that suffix. -/
theorem dropToCursor_suffix (tools : List McpToolSummary)
    (hnd : (tools.map McpToolSummary.name).Nodup)
    (t : McpToolSummary) (rest : List McpToolSummary)
    (hsuf : (t :: rest) <:+ tools) :
    dropToCursor tools t.name = t :: rest := by
  induction tools with
  | nil =>
    obtain ⟨u, hu⟩ := hsuf
    cases u <;> simp at hu
  | cons x xs ih =>
    unfold dropToCursor
    by_cases hx : x.name = t.name
    · rw [if_pos hx]
      rcases List.suffix_cons_iff.mp hsuf with he | hs
      · exact he.symm
      · exfalso
        have htmem : t ∈ xs := hs.subset (List.mem_cons_self t rest)
        have : t.name ∈ xs.map McpToolSummary.name := List.mem_map_of_mem _ htmem
        have hnd' := (List.nodup_cons.mp hnd).1
        rw [hx] at hnd'
        exact hnd' this
    · rw [if_neg hx]
      rcases List.suffix_cons_iff.mp hsuf with he | hs
      · exfalso
        apply hx
        have := congrArg (fun l => l.head?) he
        simp at this
        rw [this]
      · exact ih (List.nodup_cons.mp hnd).2 hs

/-- Pagination invariant: starting from any cursor that selects a suffix of
the registry, following `nextCursor` yields exactly that suffix, in order.
Registry names must be unique (enforced by `McpServer::AddTool`) and
nonempty, and the budget must cover every descriptor plus the fixed
41-byte overhead. -/
theorem collectPages_suffix (tools : List McpToolSummary) (budget : Nat)
    (hnd : (tools.map McpToolSummary.name).Nodup)
    (hnames : ∀ t ∈ tools, t.name ≠ "")
    (hbudget : ∀ t ∈ tools, t.json.length + 41 ≤ budget) :
    ∀ (fuel : Nat) (rest : List McpToolSummary) (cursor : String),
      rest.length < fuel →
      rest <:+ tools →
      (if cursor = "" then tools else dropToCursor tools cursor) = rest →
      (rest = [] → tools = []) →
      collectPages tools budget fuel cursor =
        some (rest.map McpToolSummary.name) := by
  intro fuel
  induction fuel with
  | zero =>
    intro rest cursor h _ _ _
    exact absurd h (Nat.not_lt_zero _)
  | succ fuel ih =>
    intro rest cursor hlen hsuf hcur hemp
    have hstep : collectPages tools budget (fuel+1) cursor =
        (match GetToolsList tools cursor budget with
         | ListReply.error _ => none
         | ListReply.result names none => some names
         | ListReply.result names (some nc) =>
           match collectPages tools budget fuel nc with
           | some more => some (names ++ more)
           | none => none) := rfl
    cases rest with
    | nil =>
      have htools : tools = [] := hemp rfl
      subst htools
      have hg : GetToolsList [] cursor budget = ListReply.result [] none := by
        unfold GetToolsList
        dsimp only
        have hrest : (if cursor = "" then ([] : List McpToolSummary)
            else dropToCursor [] cursor) = [] := by
          split <;> rfl
        rw [hrest]
        simp [listToolsFrom]
      rw [hstep, hg]
      rfl
    | cons t rest2 =>
      have htmem : t ∈ tools := hsuf.subset (List.mem_cons_self t rest2)
      have hfit := hbudget t htmem
      obtain ⟨k, hk, h1, h2⟩ := listToolsFrom_split budget (t :: rest2) 10
      have hne1 : (listToolsFrom budget (t :: rest2) 10).1 ≠ [] :=
        listToolsFrom_cons_fits budget t rest2 hfit
      have hkpos : 0 < k := by
        rcases Nat.eq_zero_or_pos k with h0 | h
        · rw [h0] at h1
          simp at h1
          exact absurd h1 hne1
        · exact h
      have hg : GetToolsList tools cursor budget =
          ListReply.result (((t :: rest2).take k).map McpToolSummary.name)
            ((((t :: rest2).drop k).head?).map McpToolSummary.name) := by
        unfold GetToolsList
        dsimp only
        rw [hcur]
        rw [if_neg (fun hand => hne1 hand.1)]
        rw [h1, h2]
      cases hdk : ((t :: rest2).drop k).head? with
      | none =>
        have hdrop : (t :: rest2).drop k = [] := List.head?_eq_none_iff.mp hdk
        have hkfull : (t :: rest2).length ≤ k := List.drop_eq_nil_iff.mp hdrop
        have htake : (t :: rest2).take k = t :: rest2 :=
          List.take_of_length_le hkfull
        rw [hdk] at hg
        rw [htake] at hg
        rw [hstep, hg]
        rfl
      | some tNext =>
        obtain ⟨l', hl'⟩ : ∃ l', (t :: rest2).drop k = tNext :: l' := by
          cases hdrop2 : (t :: rest2).drop k with
          | nil =>
            rw [hdrop2] at hdk
            cases hdk
          | cons u l' =>
            rw [hdrop2] at hdk
            simp at hdk
            exact ⟨l', by rw [hdk]⟩
        have hsuf3 : (tNext :: l') <:+ tools := by
          rw [← hl']
          exact (List.drop_suffix k (t :: rest2)).trans hsuf
        have htnmem : tNext ∈ tools := hsuf3.subset (List.mem_cons_self _ _)
        have hnnne : tNext.name ≠ "" := hnames tNext htnmem
        have hdropc : dropToCursor tools tNext.name = tNext :: l' :=
          dropToCursor_suffix tools hnd tNext l' hsuf3
        have hlen3 : (tNext :: l').length < fuel := by
          have h5 : (tNext :: l').length = (t :: rest2).length - k := by
            rw [← hl']
            exact List.length_drop k _
          have h6 : (t :: rest2).length = rest2.length + 1 := by simp
          omega
        have hrec := ih (tNext :: l') tNext.name hlen3 hsuf3
          (by rw [if_neg hnnne]; exact hdropc) (fun h => by cases h)
        rw [hdk] at hg
        simp only [Option.map_some'] at hg
        rw [hstep, hg]
        show (match collectPages tools budget fuel tNext.name with
              | some more =>
                some ((((t :: rest2).take k).map McpToolSummary.name) ++ more)
              | none => none) = _
        rw [hrec]
        show some ((((t :: rest2).take k).map McpToolSummary.name) ++
          ((tNext :: l').map McpToolSummary.name)) = _
        rw [← hl', ← List.map_append, List.take_append_drop]

/-- C3 (amended): for any registry with unique, nonempty tool names and any
response-size budget at least 41 bytes larger than every serialized tool
descriptor (the overhead: the 10-byte array prefix, the separating comma
and the 30-byte reserve of the size check), repeatedly calling `tools/list`
and following `nextCursor` until it is absent yields every registered tool
exactly once, in registry order. -/
theorem toolsList_pagination_complete (tools : List McpToolSummary)
    (budget : Nat) (hnd : (tools.map McpToolSummary.name).Nodup)
    (hnames : ∀ t ∈ tools, t.name ≠ "")
    (hbudget : ∀ t ∈ tools, t.json.length + 41 ≤ budget) :
    collectPages tools budget (tools.length + 1) "" =
      some (tools.map McpToolSummary.name) :=
  collectPages_suffix tools budget hnd hnames hbudget (tools.length + 1)
    tools "" (Nat.lt_succ_self _) List.suffix_rfl (by rw [if_pos rfl])
    (fun h => h)

/-- A two-tool registry that paginates in two pages under budget 71. -/
def pagTools : List McpToolSummary :=
  [{ name := "alpha", json := String.mk (List.replicate 30 'x') },
   { name := "beta", json := String.mk (List.replicate 30 'y') }]

/-- C3 amended-theorem witness at a concrete registry and budget. -/
theorem toolsList_pagination_complete_witness :
    collectPages pagTools 71 (pagTools.length + 1) "" =
      some (pagTools.map McpToolSummary.name) :=
  toolsList_pagination_complete pagTools 71 (by decide) (by decide) (by decide)

/-! ## C5: tools/call argument binding (`McpServer::DoToolCall`) -/

/-- The property-type enum, names as in the source
(`kPropertyTypeBoolean` etc.). -/
inductive PropertyType
| kPropertyTypeBoolean
| kPropertyTypeInteger
| kPropertyTypeString
deriving DecidableEq, Repr

/-- Modelled from the spec: the `Property` class lives in `mcp_server.h`,
which is not part of the sources; per the spec a property has a name, a
type in bool/int/string, an optional default value and optional integer
bounds (the source registers e.g.
`Property("volume", kPropertyTypeInteger, 0, 100)`). -/
structure Property where
  name : String
  type : PropertyType
  has_default_value : Bool
  min_value : Option Int
  max_value : Option Int
deriving DecidableEq, Repr

/-- The cJSON value shapes `DoToolCall` distinguishes: bool, number,
string, anything else. -/
inductive JsonVal
| jbool (b : Bool)
| jnum (n : Int)
| jstr (s : String)
| jother
deriving DecidableEq, Repr

/-- `cJSON_GetObjectItem` on the `arguments` object: first binding with
the requested key. -/
def lookupArg (args : List (String × JsonVal)) (n : String) : Option JsonVal :=
  (args.find? (fun p => p.1 == n)).map (fun p => p.2)

/-- Exact name+type match of a supplied argument against a declared
property (the `cJSON_IsBool`/`IsNumber`/`IsString` checks of the bind
loop). -/
def typeMatches : PropertyType → JsonVal → Bool
| PropertyType.kPropertyTypeBoolean, JsonVal.jbool _ => true
| PropertyType.kPropertyTypeInteger, JsonVal.jnum _ => true
| PropertyType.kPropertyTypeString, JsonVal.jstr _ => true
| _, _ => false

/-- Whether some supplied argument binds to the property by exact name and
type. -/
def bindsArg (args : List (String × JsonVal)) (p : Property) : Bool :=
  match lookupArg args p.name with
  | some v => typeMatches p.type v
  | none => false

/-- Modelled from the spec: `Property::set_value<int>` (in the missing
`mcp_server.h`) checks the optional bounds and throws on violation — the
spec's bind exception, answered with the exception's message. -/
def intOutOfBounds (p : Property) (n : Int) : Bool :=
  (match p.min_value with
   | some m => decide (n < m)
   | none => false) ||
  (match p.max_value with
   | some m => decide (m < n)
   | none => false)

/-- One iteration of the bind loop of `DoToolCall` (`mcp_server.cc:510`):
returns whether the property was bound (`found`), or the bind exception. -/
def bindOne (args : List (String × JsonVal)) (p : Property) :
    Except String Bool :=
  match lookupArg args p.name, p.type with
  | some (JsonVal.jbool _), PropertyType.kPropertyTypeBoolean => Except.ok true
  | some (JsonVal.jnum n), PropertyType.kPropertyTypeInteger =>
    if intOutOfBounds p n then
      Except.error ("Value out of range for property: " ++ p.name)
    else Except.ok true
  | some (JsonVal.jstr _), PropertyType.kPropertyTypeString => Except.ok true
  | _, _ => Except.ok false

/-- Result of the whole bind loop: all bound (possibly by defaults), or
stopped at a missing no-default argument, or aborted by a bind
exception. -/
inductive BindResult
| ok
| missing (argName : String)
| exn (msg : String)
deriving DecidableEq, Repr

/-- The bind loop of `DoToolCall`: properties in declaration order; a bind
exception aborts everything; an unbound property without default stops the
loop naming that property. -/
def bindArgs (args : List (String × JsonVal)) : List Property → BindResult
| [] => BindResult.ok
| p :: rest =>
  match bindOne args p with
  | Except.error e => BindResult.exn e
  | Except.ok found =>
    if !p.has_default_value && !found then BindResult.missing p.name
    else bindArgs args rest

/-- What `DoToolCall` reads of a registered tool. -/
structure McpToolDef where
  name : String
  properties : List Property
deriving DecidableEq, Repr

/-- Outcome of `McpServer::DoToolCall` (`mcp_server.cc:499`): exactly one
reply per call id — an RPC error (unknown tool, missing argument, or bind
exception; the callback is never invoked), or the dispatch of the tool's
callback onto its worker thread. -/
inductive CallOutcome
| errorReply (msg : String)
| invokeTool (toolName : String)
deriving DecidableEq, Repr

/-- `McpServer::DoToolCall`: find the tool by name, bind the declared
properties from the supplied arguments, and only when every property is
bound (or defaulted) hand the callback to a worker thread. -/
def DoToolCall (tools : List McpToolDef) (tool_name : String)
    (args : List (String × JsonVal)) : CallOutcome :=
  match tools.find? (fun t => t.name == tool_name) with
  | none => CallOutcome.errorReply ("Unknown tool: " ++ tool_name)
  | some tool =>
    match bindArgs args tool.properties with
    | BindResult.exn e => CallOutcome.errorReply e
    | BindResult.missing n =>
      CallOutcome.errorReply ("Missing valid argument: " ++ n)
    | BindResult.ok => CallOutcome.invokeTool tool.name

/-- The name of the first declared property that has no default and no
binding argument. -/
def firstMissingName (args : List (String × JsonVal))
    (props : List Property) : Option String :=
  (props.find? (fun p => !p.has_default_value && !bindsArg args p)).map
    Property.name

/-- A volume tool with a bounded required `volume` and a required
`channel`. -/
def c5Tool : McpToolDef :=
  { name := "self.audio_speaker.set_volume",
    properties :=
      [{ name := "volume", type := PropertyType.kPropertyTypeInteger,
         has_default_value := false, min_value := some 0,
         max_value := some 100 },
       { name := "channel", type := PropertyType.kPropertyTypeInteger,
         has_default_value := false, min_value := none, max_value := none }] }

/-- Arguments binding `volume` by name and type but out of bounds, and not
supplying `channel` at all. -/
def c5Args : List (String × JsonVal) := [("volume", JsonVal.jnum 999)]

/-- C5 counterexample: `channel` is the (unique) declared property with no
default and no binding argument, yet the single RPC error reply carries
the bind exception raised for `volume` (whose supplied value matches by
name and type but violates its bounds) and does not name `channel`. -/
theorem toolCall_missing_arg_counterexample :
    (c5Tool.properties.filter
      (fun p => !p.has_default_value && !(bindsArg c5Args p))).map
        Property.name = ["channel"] ∧
    DoToolCall [c5Tool] "self.audio_speaker.set_volume" c5Args =
      CallOutcome.errorReply "Value out of range for property: volume" ∧
    DoToolCall [c5Tool] "self.audio_speaker.set_volume" c5Args ≠
      CallOutcome.errorReply "Missing valid argument: channel" := by
  decide

/-- A successful bind attempt reports exactly the name+type match. -/
theorem bindOne_ok_eq (args : List (String × JsonVal)) (p : Property)
    (found : Bool) (h : bindOne args p = Except.ok found) :
    found = bindsArg args p := by
  cases hl : lookupArg args p.name with
  | none =>
    cases htyp : p.type <;> simp_all [bindOne, bindsArg, typeMatches]
  | some v =>
    cases v <;> cases htyp : p.type <;>
      simp_all [bindOne, bindsArg, typeMatches] <;>
      (split at h
       · exact Except.noConfusion h
       · simp_all)

/-- If some declared property has no default and no binding argument, the
bind loop never succeeds. -/
theorem bindArgs_not_ok (args : List (String × JsonVal))
    (props : List Property)
    (h : props.any (fun p => !p.has_default_value && !bindsArg args p) = true) :
    bindArgs args props ≠ BindResult.ok := by
  induction props with
  | nil => simp at h
  | cons p rest ih =>
    unfold bindArgs
    cases hb : bindOne args p with
    | error e => intro hc; cases hc
    | ok found =>
      have hfound := bindOne_ok_eq args p found hb
      subst hfound
      show (if (!p.has_default_value && !bindsArg args p) = true then
          BindResult.missing p.name
        else bindArgs args rest) ≠ BindResult.ok
      by_cases hm : (!p.has_default_value && !bindsArg args p) = true
      · rw [if_pos hm]
        intro hc
        cases hc
      · rw [if_neg hm]
        apply ih
        rcases List.any_eq_true.mp h with ⟨q, hq, hqp⟩
        rcases List.mem_cons.mp hq with he | hr
        · exact absurd (he ▸ hqp) hm
        · exact List.any_eq_true.mpr ⟨q, hr, hqp⟩

/-- A property with no binding argument cannot raise a bind exception: the
bounds check only runs on a name+type match. -/
theorem bindOne_of_not_binds (args : List (String × JsonVal)) (p : Property)
    (h : bindsArg args p = false) : bindOne args p = Except.ok false := by
  cases hl : lookupArg args p.name with
  | none =>
    cases htyp : p.type <;> simp_all [bindOne, bindsArg, typeMatches]
  | some v =>
    cases v <;> cases htyp : p.type <;>
      simp_all [bindOne, bindsArg, typeMatches]

/-- When no property declared before the first missing one throws during
binding, the loop stops at that first missing no-default property and
names it: the missing property's own bind cannot throw, and properties
declared after it are never attempted. -/
theorem bindArgs_missing (args : List (String × JsonVal))
    (props : List Property)
    (hexn : ∀ p ∈ props.takeWhile
        (fun p => !(!p.has_default_value && !bindsArg args p)),
      (bindOne args p).isOk = true)
    (hmiss : props.any (fun p => !p.has_default_value && !bindsArg args p) = true) :
    bindArgs args props =
      BindResult.missing ((firstMissingName args props).getD "") := by
  induction props with
  | nil => simp at hmiss
  | cons p rest ih =>
    unfold bindArgs
    by_cases hm : (!p.has_default_value && !bindsArg args p) = true
    · have hparts : p.has_default_value = false ∧ bindsArg args p = false := by
        have h2 := hm
        simp at h2
        exact h2
      rw [bindOne_of_not_binds args p hparts.2]
      show (if (!p.has_default_value && !false) = true then
          BindResult.missing p.name
        else bindArgs args rest) =
        BindResult.missing ((firstMissingName args (p :: rest)).getD "")
      rw [if_pos (by simp [hparts.1])]
      unfold firstMissingName
      have hf : List.find?
          (fun q => !q.has_default_value && !bindsArg args q) (p :: rest) =
          some p := by
        simp [List.find?, hm]
      rw [hf]
      rfl
    · have hm2 : (!p.has_default_value && !bindsArg args p) = false := by
        revert hm
        cases (!p.has_default_value && !bindsArg args p) <;> simp
      have htw : (p :: rest).takeWhile
          (fun p => !(!p.has_default_value && !bindsArg args p)) =
          p :: rest.takeWhile
            (fun p => !(!p.has_default_value && !bindsArg args p)) := by
        simp only [List.takeWhile_cons, hm2]
        rfl
      have hok := hexn p (by rw [htw]; exact List.mem_cons_self _ _)
      cases hb : bindOne args p with
      | error e =>
        rw [hb] at hok
        simp [Except.isOk, Except.toBool] at hok
      | ok found =>
        have hfound := bindOne_ok_eq args p found hb
        subst hfound
        show (if (!p.has_default_value && !bindsArg args p) = true then
            BindResult.missing p.name
          else bindArgs args rest) =
          BindResult.missing ((firstMissingName args (p :: rest)).getD "")
        rw [if_neg hm]
        have hmiss2 : rest.any
            (fun p => !p.has_default_value && !bindsArg args p) = true := by
          rcases List.any_eq_true.mp hmiss with ⟨q, hq, hqp⟩
          rcases List.mem_cons.mp hq with he | hr
          · exact absurd (he ▸ hqp) hm
          · exact List.any_eq_true.mpr ⟨q, hr, hqp⟩
        have h2 := ih
          (fun q hq => hexn q (by rw [htw]; exact List.mem_cons_of_mem _ hq))
          hmiss2
        rw [h2]
        unfold firstMissingName
        have hf : List.find?
            (fun q => !q.has_default_value && !bindsArg args q) (p :: rest) =
            List.find?
              (fun q => !q.has_default_value && !bindsArg args q) rest := by
          simp [List.find?, hm2]
        rw [hf]

/-- C5 (amended): for every `tools/call` against a registered tool where
some declared property has no default and no supplied argument binds to it
by exact name and type, the tool's callback is never invoked and exactly
one RPC error reply is sent; when no property declared before the first
such missing one throws during binding, the reply names that first missing
argument (on an earlier bind exception the reply carries that exception's
message instead). -/
theorem toolCall_missing_arg (tools : List McpToolDef) (tool_name : String)
    (args : List (String × JsonVal)) (tool : McpToolDef)
    (hfind : tools.find? (fun t => t.name == tool_name) = some tool)
    (hmiss : tool.properties.any
      (fun p => !p.has_default_value && !bindsArg args p) = true) :
    (∀ tn, DoToolCall tools tool_name args ≠ CallOutcome.invokeTool tn) ∧
    (∃ msg, DoToolCall tools tool_name args = CallOutcome.errorReply msg) ∧
    ((∀ p ∈ tool.properties.takeWhile
        (fun p => !(!p.has_default_value && !bindsArg args p)),
      (bindOne args p).isOk = true) →
      DoToolCall tools tool_name args =
        CallOutcome.errorReply ("Missing valid argument: " ++
          (firstMissingName args tool.properties).getD "")) := by
  have hD : DoToolCall tools tool_name args =
      (match bindArgs args tool.properties with
       | BindResult.exn e => CallOutcome.errorReply e
       | BindResult.missing n =>
         CallOutcome.errorReply ("Missing valid argument: " ++ n)
       | BindResult.ok => CallOutcome.invokeTool tool.name) := by
    unfold DoToolCall
    rw [hfind]
  rw [hD]
  have hnotok := bindArgs_not_ok args tool.properties hmiss
  cases hb : bindArgs args tool.properties with
  | ok => exact absurd hb hnotok
  | exn e =>
    refine ⟨?_, ?_, ?_⟩
    · intro tn h
      cases h
    · exact ⟨e, rfl⟩
    · intro hexn
      rw [bindArgs_missing args tool.properties hexn hmiss] at hb
      cases hb
  | missing n =>
    refine ⟨?_, ?_, ?_⟩
    · intro tn h
      cases h
    · exact ⟨"Missing valid argument: " ++ n, rfl⟩
    · intro hexn
      rw [bindArgs_missing args tool.properties hexn hmiss] at hb
      injection hb with hb
      rw [hb]

/-- A variant of the volume tool that declares the required unbounded
`channel` before the bounded `volume`: the bind loop stops at `channel`
and never attempts `volume`, so even an out-of-range `volume` argument
cannot preempt the missing-argument reply. -/
def c5ToolRev : McpToolDef :=
  { name := "self.audio_speaker.set_volume",
    properties :=
      [{ name := "channel", type := PropertyType.kPropertyTypeInteger,
         has_default_value := false, min_value := none, max_value := none },
       { name := "volume", type := PropertyType.kPropertyTypeInteger,
         has_default_value := false, min_value := some 0,
         max_value := some 100 }] }

/-- C5 amended-theorem witness: `channel` is declared first and missing,
so nothing is bound before it (the out-of-range `volume` argument is never
attempted) and the reply names `channel`. -/
theorem toolCall_missing_arg_witness :
    (∀ tn, DoToolCall [c5ToolRev] "self.audio_speaker.set_volume" c5Args ≠
      CallOutcome.invokeTool tn) ∧
    (∃ msg, DoToolCall [c5ToolRev] "self.audio_speaker.set_volume" c5Args =
      CallOutcome.errorReply msg) ∧
    ((∀ p ∈ c5ToolRev.properties.takeWhile
        (fun p => !(!p.has_default_value && !bindsArg c5Args p)),
      (bindOne c5Args p).isOk = true) →
      DoToolCall [c5ToolRev] "self.audio_speaker.set_volume" c5Args =
        CallOutcome.errorReply ("Missing valid argument: " ++
          (firstMissingName c5Args c5ToolRev.properties).getD "")) :=
  toolCall_missing_arg [c5ToolRev] "self.audio_speaker.set_volume" c5Args
    c5ToolRev (by decide) (by decide)

/-! ## C8: the main event loop's closure drain -/

/-- The closure-drain loop of `Application::MainEventLoop`
(`application.cc:786-792`): the batch of scheduled closures runs in order
with no try/catch at the loop boundary, so a closure's C++ exception
propagates out of the `for` loop — the remaining closures of the batch do
not run and the loop is unwound.  A closure is modelled as a state
transformer that either returns or throws. -/
def runTasks {σ : Type} : List (σ → Except String σ) → σ → Except String σ
| [], s => Except.ok s
| t :: ts, s =>
  match t s with
  | Except.ok s2 => runTasks ts s2
  | Except.error e => Except.error e

/-- A batch whose first closure throws and whose second would increment the
state. -/
def c8Tasks : List (Nat → Except String Nat) :=
  [fun _ => Except.error "task failed", fun n => Except.ok (n + 1)]

/-- C8 counterexample: the drain of a batch whose first closure throws ends
with that exception; the error is not swallowed, and the remaining closure
(which would have produced the state 1) never runs. -/
theorem mainLoop_task_error_counterexample :
    runTasks c8Tasks 0 = Except.error "task failed" ∧
    runTasks c8Tasks 0 ≠ Except.ok 1 :=
  ⟨rfl, fun h => nomatch h⟩

/-- C8 (amended): a throwing closure aborts the batch: whatever closures
ran successfully before it, the drain of the whole batch ends with that
closure's exception, and the closures after it never run (all their
effects are absent from the result, which is the error itself). -/
theorem runTasks_error_propagates {σ : Type}
    (pre : List (σ → Except String σ)) (t : σ → Except String σ)
    (post : List (σ → Except String σ)) (s s1 : σ) (e : String)
    (hpre : runTasks pre s = Except.ok s1) (ht : t s1 = Except.error e) :
    runTasks (pre ++ t :: post) s = Except.error e := by
  induction pre generalizing s with
  | nil =>
    have hs : s = s1 := by
      have h2 : Except.ok (ε := String) s = Except.ok s1 := hpre
      injection h2
    subst hs
    show runTasks (t :: post) s = Except.error e
    unfold runTasks
    rw [ht]
  | cons u pre ih =>
    show runTasks (u :: (pre ++ t :: post)) s = Except.error e
    unfold runTasks
    unfold runTasks at hpre
    cases hu : u s with
    | ok s2 =>
      rw [hu] at hpre
      exact ih s2 hpre
    | error e2 =>
      rw [hu] at hpre
      cases hpre

/-- C8 amended-theorem witness: one successful closure, then a throwing
one, then one that never runs. -/
theorem runTasks_error_propagates_witness :
    runTasks ([fun n => Except.ok (n + 1)] ++
      (fun _ => Except.error "task failed") ::
        [fun n => Except.ok (n + 5)]) 0 = Except.error "task failed" :=
  runTasks_error_propagates [fun n => Except.ok (n + 1)]
    (fun _ => Except.error "task failed") [fun n => Except.ok (n + 5)]
    0 1 "task failed" rfl rfl
